import Mathlib

/-!
Shallow embedding of the review-intake service (src/app.py) and proofs about
its specified behaviour. Pure data is modelled directly; the SQLAlchemy
session becomes an explicit `DBState` plus a trace of session operations;
the mlflow classifier becomes a function value that may fail (`Except`);
HTTP error raising becomes an explicit outcome constructor.
-/

/-- Severity level of a logging call (`logging.error` in src/app.py). -/
inductive LogLevel where
  | error
  | info
  deriving DecidableEq

/-- A logging call as emitted by src/app.py (level plus formatted message). -/
structure LogEvent where
  level : LogLevel
  message : String
  deriving DecidableEq

/-- Row of the `movies` table (class Movie in src/app.py). -/
structure Movie where
  id : Nat
  name : String
  description : String
  deriving DecidableEq

/-- Row of the `movie_reviews` table (class MovieReview in src/app.py). -/
structure MovieReview where
  review_id : Nat
  movie_id : Int
  review : String
  isPos : Bool
  deriving DecidableEq

/-- The persisted state: both tables plus the next store-assigned ids. -/
structure DBState where
  movies : List Movie
  reviews : List MovieReview
  nextMovieId : Nat
  nextReviewId : Nat
  deriving DecidableEq

/-- The loaded model: `model.predict(texts)` either returns one label per
input text or raises (modelled as `Except.error` with the exception text). -/
def Classifier : Type := List String → Except String (List String)

/-- A session operation performed by `submit_and_predict_review` against the
SQLAlchemy session (`db.add`, `db.commit`, `db.rollback`, `db.refresh`). -/
inductive DbOp where
  | add (movie_id : Int) (review : String) (isPos : Bool)
  | commit
  | rollback
  | refresh
  deriving DecidableEq

/-- Result of a call to the `/submit_review` handler: either a raised
`HTTPException(status_code, detail)` or the returned success payload. -/
inductive SubmitOutcome where
  | httpException (status_code : Nat) (detail : String)
  | ok (sentiment : String) (model_version : String) (message : String)
  deriving DecidableEq

/-- Everything observable about one call of `submit_and_predict_review`:
the HTTP outcome, the logging calls made, the database state afterwards,
and the trace of session operations attempted. -/
structure SubmitRun where
  outcome : SubmitOutcome
  logs : List LogEvent
  db : DBState
  dbOps : List DbOp
  deriving DecidableEq

/-- Python str.lower: per-character ASCII case fold, exactly what
String.toLower computes, written by structural recursion so that concrete
runs evaluate inside proofs. -/
def lowerStr (s : String) : String := String.mk (s.data.map Char.toLower)

/-- Step 1 of src/app.py submit_and_predict_review, the try block of lines
244..249: `prediction = model.predict([text])`, `sentiment = prediction[0]`
(IndexError on an empty prediction is also caught by the except clause), and
`is_positive = sentiment.lower() == "positive"`. -/
def classifyStep (model : Classifier) (text : String) :
    Except String (String × Bool) :=
  match model [text] with
  | .error e => .error e
  | .ok prediction =>
    match prediction.head? with
    | none => .error "list index out of range"
    | some sentiment => .ok (sentiment, lowerStr sentiment == "positive")

/-- src/app.py lines 233..275, `submit_and_predict_review`. The module-level
globals `model` and `latest_run_id` are passed explicitly; `dbFail` is
`some e` when the add/commit block raises exception `e` and `none` when the
commit succeeds. -/
def submit_and_predict_review (model : Option Classifier)
    (latest_run_id : String) (dbFail : Option String) (db : DBState)
    (movie_id : Int) (text : String) : SubmitRun :=
  match model with
  | none =>
    { outcome := .httpException 503 "Model not loaded. Check server logs.",
      logs := [], db := db, dbOps := [] }
  | some m =>
    match classifyStep m text with
    | .error e =>
      { outcome := .httpException 500 "Prediction service failed.",
        logs := [⟨.error, "Prediction failed: " ++ e⟩],
        db := db, dbOps := [] }
    | .ok (sentiment, is_positive) =>
      match dbFail with
      | some e =>
        { outcome :=
            .httpException 500
              "Review saved failed but prediction was successful.",
          logs := [⟨.error, "Database insertion failed: " ++ e⟩],
          db := db,
          dbOps := [.add movie_id text is_positive, .commit, .rollback] }
      | none =>
        { outcome :=
            .ok sentiment latest_run_id
              "Review submitted and analyzed successfully.",
          logs := [],
          db := { db with
                   reviews := db.reviews ++
                     [⟨db.nextReviewId, movie_id, text, is_positive⟩],
                   nextReviewId := db.nextReviewId + 1 },
          dbOps := [.add movie_id text is_positive, .commit, .refresh] }

/-- Response schema of `/score/movie_id` (class ScoreResponse in src/app.py);
the float score is modelled as a rational. -/
structure ScoreResponse where
  total_reviews : Nat
  positive_count : Nat
  score : ℚ
  deriving DecidableEq

/-- Python `round(x, 2)` modelled over the rationals. -/
def roundTo2 (q : ℚ) : ℚ := ((round (q * 100) : ℤ) : ℚ) / 100

/-- src/app.py lines 209..231, `get_movie_score`: count the reviews of the
movie, count the positive ones among them, and return the rounded
percentage (0.0 when the movie has no reviews). -/
def get_movie_score (db : DBState) (movie_id : Int) : ScoreResponse :=
  let total_reviews :=
    (db.reviews.filter (fun r => r.movie_id == movie_id)).length
  let positive_count :=
    (db.reviews.filter
      (fun r => r.movie_id == movie_id && r.isPos == true)).length
  let score : ℚ :=
    if total_reviews = 0 then 0
    else ((positive_count : ℚ) / (total_reviews : ℚ)) * 100
  { total_reviews := total_reviews,
    positive_count := positive_count,
    score := roundTo2 score }

/-- src/app.py line 198, the `/` endpoint payload. -/
def home : String := "Rotten Potatoes API is running."

/-- Outcome of reading initial_movies.json and initial_reviews.json in
`seed_database` (src/app.py lines 136..147): the files may be missing
(FileNotFoundError), malformed (json.JSONDecodeError), or parse into a list
of movies (name, desc) and a list of reviews (name, review_text,
is_positive). -/
inductive SeedFilesResult where
  | fileNotFound (msg : String)
  | jsonDecodeError (msg : String)
  | ok (initial_movies : List (String × String))
       (initial_reviews_data : List (String × String × Bool))

/-- src/app.py lines 121..174, `seed_database`. Table creation
(`Base.metadata.create_all`) does not change the modelled state. If the
movies table is non-empty the function returns before any insert. Otherwise
movies are inserted with store-assigned sequential ids, a name-to-id map is
built from the movies table, and each seed review whose movie name resolves
to a truthy id (Python `if movie_id:` is false for both None and 0) is
inserted. -/
def seed_database (files : SeedFilesResult) (db : DBState) : DBState :=
  if (db.movies.length : Nat) > 0 then db
  else
    match files with
    | .fileNotFound _ => db
    | .jsonDecodeError _ => db
    | .ok initial_movies initial_reviews_data =>
      let db1 := initial_movies.foldl
        (fun d m =>
          { d with
             movies := d.movies ++ [⟨d.nextMovieId, m.1, m.2⟩],
             nextMovieId := d.nextMovieId + 1 }) db
      let movie_name_to_id := fun (name : String) =>
        (db1.movies.find? (fun m => m.name == name)).map (fun m => m.id)
      initial_reviews_data.foldl
        (fun d r =>
          match movie_name_to_id r.1 with
          | some mid =>
            if mid ≠ 0 then
              { d with
                 reviews := d.reviews ++
                   [⟨d.nextReviewId, (mid : Int), r.2.1, r.2.2⟩],
                 nextReviewId := d.nextReviewId + 1 }
            else d
          | none => d) db1

/-- A directory tree as walked by `os.walk` in src/app.py lines 98..102:
each node is a directory path, its plain files, and its subdirectories. -/
inductive FSTree where
  | node (path : String) (files : List String) (children : List FSTree)

mutual
/-- src/app.py lines 98..102: walk the tree top-down and return the first
directory containing a file named model.pkl, if any. -/
def walkFind : FSTree → Option String
  | .node path files children =>
    if files.contains "model.pkl" then some path
    else walkFindList children

/-- Helper of `walkFind`: first hit over the subdirectory list, in order. -/
def walkFindList : List FSTree → Option String
  | [] => none
  | t :: ts =>
    match walkFind t with
    | some r => some r
    | none => walkFindList ts
end

/-- src/app.py line 114: `os.path.basename(os.path.dirname(os.path.dirname(
model_uri)))`, over slash-separated path components. -/
def runIdOfPath (uri : String) : String :=
  (((uri.splitOn "/").dropLast).dropLast).getLastD ""

/-- src/app.py lines 88..118, the module-level model loading block. The walk
result comes from `walkFind` over the mlruns tree; `loadModel` models
`mlflow.sklearn.load_model`, which may raise. Initially `model = None` and
`latest_run_id = "Unknown"`; a FileNotFoundError (no model.pkl anywhere) or
a load failure is caught, logged, and leaves `model = None` with
`latest_run_id` still "Unknown" (the except clause runs before line 114
assigns it). Returns (model, latest_run_id). -/
def startupLoad (tree : FSTree)
    (loadModel : String → Except String Classifier) :
    Option Classifier × String :=
  match walkFind tree with
  | none => (none, "Unknown")
  | some model_uri =>
    match loadModel model_uri with
    | .error _ => (none, "Unknown")
    | .ok m => (some m, runIdOfPath model_uri)

/-- Modelled from the spec: the Event Emitter (spec section 4.5) is not part
of src/; src/app.py uses plain `logging` with a single local sink. The
LogEvent envelope per spec section 3: timestamp, severity, message, logger
name, plus open string-keyed context fields. -/
structure EmitEvent where
  timestamp : String
  level : LogLevel
  message : String
  logger : String
  context : List (String × String)
  deriving DecidableEq

/-- Modelled from the spec: how one attempt against the remote search-index
sink ends (delivered, connection refused, timed out, or a non-2xx status). -/
inductive RemoteOutcome where
  | delivered
  | connectionRefused
  | timedOut
  | badStatus (code : Nat)
  deriving DecidableEq

/-- Modelled from the spec: the raw remote-sink call, which can fail with a
network error, a timeout (the sink waits at most `timeoutMs` while the true
delivery latency is `latency`), or a non-2xx response. -/
def remoteSend (timeoutMs latency : Nat) (outcome : RemoteOutcome) :
    Except String Nat :=
  if timeoutMs ≤ latency then .error "timeout"
  else
    match outcome with
    | .delivered => .ok 200
    | .connectionRefused => .error "connection refused"
    | .timedOut => .error "timeout"
    | .badStatus code =>
      if 200 ≤ code ∧ code < 300 then .ok code else .error "bad status"

/-- Result of `emit`: the local sink after the synchronous append, the time
the caller spent on the remote attempt, and whether an error escaped. -/
structure EmitResult where
  localSink : List EmitEvent
  callerDelayMs : Nat
  raisedError : Bool
  deriving DecidableEq

/-- Modelled from the spec: `emit` (spec section 4.5) appends the event to
the synchronous local sink, then makes one best-effort, time-bounded remote
attempt whose failure is caught and discarded. -/
def emit (timeoutMs latency : Nat) (outcome : RemoteOutcome)
    (localSink : List EmitEvent) (ev : EmitEvent) : EmitResult :=
  let localSink := localSink ++ [ev]
  let elapsed := min latency timeoutMs
  match remoteSend timeoutMs latency outcome with
  | .ok _ => ⟨localSink, elapsed, false⟩
  | .error _ => ⟨localSink, elapsed, false⟩

/-- Naive list matcher: does `n` start the list `l`. -/
def startsWithChars : List Char → List Char → Bool
  | [], _ => true
  | _ :: _, [] => false
  | a :: as, b :: bs => a == b && startsWithChars as bs

/-- Does the character list `n` occur contiguously inside `l`. -/
def subOccurs (n : List Char) : List Char → Bool
  | [] => n.isEmpty
  | c :: t => startsWithChars n (c :: t) || subOccurs n t

/-- Does `needle` occur as a substring of `hay`. -/
def mentionsStr (needle hay : String) : Bool :=
  subOccurs needle.toList hay.toList

/-- A classifier that labels every input text "Positive". -/
def alwaysPositive : Classifier :=
  fun texts => Except.ok (texts.map (fun _ => "Positive"))

/-- The empty store. -/
def emptyDb : DBState := ⟨[], [], 1, 1⟩

/-- A store with one movie and three of its reviews, two of them positive. -/
def db3 : DBState :=
  ⟨[⟨1, "Inception", "A dream heist."⟩],
   [⟨1, 1, "great", true⟩, ⟨2, 1, "loved it", true⟩, ⟨3, 1, "dull", false⟩],
   2, 4⟩

/-- Claim C2: with the Classifier Port absent (model is None), submit fails
immediately with the 503 Service Unavailable error, emits no LogEvent,
performs no session operation, and leaves the persisted state unchanged. -/
theorem submit_without_model_never_touches_persistence
    (latest_run_id : String) (dbFail : Option String) (db : DBState)
    (movie_id : Int) (text : String) :
    submit_and_predict_review none latest_run_id dbFail db movie_id text =
      { outcome := .httpException 503 "Model not loaded. Check server logs.",
        logs := [], db := db, dbOps := [] } := rfl

/-- Claim C9: running seed_database against a store whose movies table is
non-empty inserts nothing and leaves the state unchanged. -/
theorem seed_database_noop_on_nonempty (files : SeedFilesResult)
    (db : DBState) (h : db.movies ≠ []) :
    seed_database files db = db := by
  unfold seed_database
  rw [if_pos]
  exact List.length_pos.mpr h

/-- Witness for claim C9 at a concrete non-empty store. -/
theorem seed_database_noop_on_nonempty_witness :
    db3.movies ≠ [] ∧
    seed_database (SeedFilesResult.ok [("X", "d")] [("X", "r", true)]) db3 =
      db3 :=
  ⟨by decide,
   seed_database_noop_on_nonempty
     (SeedFilesResult.ok [("X", "d")] [("X", "r", true)]) db3 (by decide)⟩

/-- Claim C6 (spec-modelled, the Event Emitter is not part of src/): emit
never raises, never delays the caller beyond the configured timeout, always
appends the event to the local sink, and its result is identical whatever
the remote sink does. -/
theorem emit_best_effort_bounded (timeoutMs latency : Nat)
    (outcome : RemoteOutcome) (localSink : List EmitEvent) (ev : EmitEvent) :
    (emit timeoutMs latency outcome localSink ev).raisedError = false ∧
    (emit timeoutMs latency outcome localSink ev).callerDelayMs ≤ timeoutMs ∧
    (emit timeoutMs latency outcome localSink ev).localSink =
      localSink ++ [ev] ∧
    ∀ other : RemoteOutcome,
      emit timeoutMs latency outcome localSink ev =
        emit timeoutMs latency other localSink ev := by
  have h : ∀ o : RemoteOutcome, emit timeoutMs latency o localSink ev =
      ⟨localSink ++ [ev], min latency timeoutMs, false⟩ := by
    intro o
    cases hs : remoteSend timeoutMs latency o <;> simp [emit, hs]
  refine ⟨by rw [h], ?_, by rw [h], fun other => by rw [h, h]⟩
  rw [h]
  exact Nat.min_le_right _ _

/-- Claim C4: the score endpoint returns the count of the reviews of the
movie, the count of the positive ones among them, and the percentage
rounded to two decimals (0 when there are no reviews); on the empty store
every movie scores 0 of 0 reviews, and 2 positive of 3 gives 66.67. -/
theorem get_movie_score_spec :
    (∀ (db : DBState) (movie_id : Int),
      (get_movie_score db movie_id).total_reviews =
        db.reviews.countP (fun r => r.movie_id == movie_id) ∧
      (get_movie_score db movie_id).positive_count =
        db.reviews.countP
          (fun r => r.movie_id == movie_id && r.isPos == true) ∧
      (get_movie_score db movie_id).score =
        (if db.reviews.countP (fun r => r.movie_id == movie_id) = 0
         then (0 : ℚ)
         else roundTo2
           (((db.reviews.countP
                (fun r => r.movie_id == movie_id && r.isPos == true)) : ℚ) /
             ((db.reviews.countP (fun r => r.movie_id == movie_id)) : ℚ) *
             100))) ∧
    (∀ movie_id : Int, get_movie_score emptyDb movie_id = ⟨0, 0, 0⟩) ∧
    get_movie_score db3 1 = ⟨3, 2, 6667 / 100⟩ := by
  refine ⟨fun db movie_id => ?_, fun movie_id => ?_, ?_⟩
  · refine ⟨?_, ?_, ?_⟩
    · simp [get_movie_score, List.countP_eq_length_filter]
    · simp [get_movie_score, List.countP_eq_length_filter]
    · simp only [get_movie_score, List.countP_eq_length_filter]
      by_cases h :
          (db.reviews.filter (fun r => r.movie_id == movie_id)).length = 0
      · simp [h, roundTo2]
      · simp [h]
  · simp [get_movie_score, emptyDb, roundTo2]
  · norm_num [get_movie_score, db3, roundTo2, round_eq]

/-- Counterexample to claim C1 as stated: when classification succeeds and
the write fails, the single LogEvent emitted carries only the storage
failure; its message mentions no word of success, prediction or
classification, so it does not record that the classification succeeded.
That record sits in the surfaced HTTP detail instead. -/
theorem persistence_failure_log_content_cex :
    (submit_and_predict_review (some alwaysPositive) "123"
        (some "server closed the connection") emptyDb 1 "what a film").logs =
      [⟨LogLevel.error,
        "Database insertion failed: server closed the connection"⟩] ∧
    mentionsStr "success"
      "Database insertion failed: server closed the connection" = false ∧
    mentionsStr "predict"
      "Database insertion failed: server closed the connection" = false ∧
    mentionsStr "classif"
      "Database insertion failed: server closed the connection" = false := by
  refine ⟨by decide, by decide, by decide, by decide⟩

/-- Claim C1 amended: if classification succeeds and the write fails, submit
surfaces the 500 PersistenceFailed error (never the success payload) whose
detail records that prediction succeeded while the save failed, and exactly
one LogEvent is emitted for that step, recording only the storage failure. -/
theorem persistence_failure_surfaced_with_single_log (m : Classifier)
    (latest_run_id e : String) (db : DBState) (movie_id : Int)
    (text sentiment : String) (is_positive : Bool)
    (h : classifyStep m text = .ok (sentiment, is_positive)) :
    (submit_and_predict_review (some m) latest_run_id (some e) db movie_id
        text).outcome =
      .httpException 500
        "Review saved failed but prediction was successful." ∧
    (submit_and_predict_review (some m) latest_run_id (some e) db movie_id
        text).logs =
      [⟨.error, "Database insertion failed: " ++ e⟩] ∧
    mentionsStr "prediction was successful"
      "Review saved failed but prediction was successful." = true := by
  refine ⟨?_, ?_, by decide⟩ <;> simp [submit_and_predict_review, h]

/-- Witness for the amended claim C1 at a concrete run. -/
theorem persistence_failure_surfaced_with_single_log_witness :
    classifyStep alwaysPositive "what a film" =
      Except.ok ("Positive", true) ∧
    ((submit_and_predict_review (some alwaysPositive) "123" (some "boom")
        emptyDb 1 "what a film").outcome =
      SubmitOutcome.httpException 500
        "Review saved failed but prediction was successful." ∧
    (submit_and_predict_review (some alwaysPositive) "123" (some "boom")
        emptyDb 1 "what a film").logs =
      [⟨LogLevel.error, "Database insertion failed: " ++ "boom"⟩] ∧
    mentionsStr "prediction was successful"
      "Review saved failed but prediction was successful." = true) :=
  ⟨by rfl,
   persistence_failure_surfaced_with_single_log alwaysPositive "123" "boom"
     emptyDb 1 "what a film" "Positive" true (by rfl)⟩

/-- Counterexample to claim C3 as stated: on a successful submission
src/app.py emits no LogEvent at all, in particular not exactly one carrying
the movie id, the sentiment label and the version tag; the prediction is
returned to the caller instead. -/
theorem success_emits_no_log_event_cex :
    (submit_and_predict_review (some alwaysPositive) "123" none emptyDb 1
        "what a film").logs = [] ∧
    (submit_and_predict_review (some alwaysPositive) "123" none emptyDb 1
        "what a film").logs.length ≠ 1 ∧
    (submit_and_predict_review (some alwaysPositive) "123" none emptyDb 1
        "what a film").outcome =
      SubmitOutcome.ok "Positive" "123"
        "Review submitted and analyzed successfully." := by
  refine ⟨by decide, by decide, by decide⟩

/-- Claim C3 amended: every successful submission emits no LogEvent and
returns the sentiment label, the classifier version tag and a fixed success
message to the caller. -/
theorem success_returns_sentiment_and_version (m : Classifier)
    (latest_run_id : String) (db : DBState) (movie_id : Int)
    (text sentiment : String) (is_positive : Bool)
    (h : classifyStep m text = .ok (sentiment, is_positive)) :
    (submit_and_predict_review (some m) latest_run_id none db movie_id
        text).outcome =
      .ok sentiment latest_run_id
        "Review submitted and analyzed successfully." ∧
    (submit_and_predict_review (some m) latest_run_id none db movie_id
        text).logs = [] := by
  constructor <;> simp [submit_and_predict_review, h]

/-- Witness for the amended claim C3 at a concrete run. -/
theorem success_returns_sentiment_and_version_witness :
    classifyStep alwaysPositive "what a film" =
      Except.ok ("Positive", true) ∧
    ((submit_and_predict_review (some alwaysPositive) "v7" none emptyDb 1
        "what a film").outcome =
      SubmitOutcome.ok "Positive" "v7"
        "Review submitted and analyzed successfully." ∧
    (submit_and_predict_review (some alwaysPositive) "v7" none emptyDb 1
        "what a film").logs = []) :=
  ⟨by rfl,
   success_returns_sentiment_and_version alwaysPositive "v7" emptyDb 1
     "what a film" "Positive" true (by rfl)⟩

/-- Claim C5: a submission classified positive and successfully persisted
raises both the total review count and the positive count of its movie by
exactly one. -/
theorem positive_persisted_increments_counts (m : Classifier)
    (latest_run_id : String) (db : DBState) (movie_id : Int)
    (text sentiment : String)
    (h : classifyStep m text = .ok (sentiment, true)) :
    (get_movie_score
        (submit_and_predict_review (some m) latest_run_id none db movie_id
          text).db movie_id).total_reviews =
      (get_movie_score db movie_id).total_reviews + 1 ∧
    (get_movie_score
        (submit_and_predict_review (some m) latest_run_id none db movie_id
          text).db movie_id).positive_count =
      (get_movie_score db movie_id).positive_count + 1 := by
  have hdb : (submit_and_predict_review (some m) latest_run_id none db
      movie_id text).db =
      { db with
         reviews := db.reviews ++ [⟨db.nextReviewId, movie_id, text, true⟩],
         nextReviewId := db.nextReviewId + 1 } := by
    simp [submit_and_predict_review, h]
  rw [hdb]
  constructor <;> simp [get_movie_score, List.filter_append]

/-- Witness for claim C5 at a concrete run on the three-review store. -/
theorem positive_persisted_increments_counts_witness :
    classifyStep alwaysPositive "what a film" =
      Except.ok ("Positive", true) ∧
    ((get_movie_score
        (submit_and_predict_review (some alwaysPositive) "v7" none db3 1
          "what a film").db 1).total_reviews =
      (get_movie_score db3 1).total_reviews + 1 ∧
    (get_movie_score
        (submit_and_predict_review (some alwaysPositive) "v7" none db3 1
          "what a film").db 1).positive_count =
      (get_movie_score db3 1).positive_count + 1) :=
  ⟨by rfl,
   positive_persisted_increments_counts alwaysPositive "v7" db3 1
     "what a film" "Positive" (by rfl)⟩

/-- Two strings match case-insensitively when they lowercase equal. -/
def caseInsensitiveEq (a b : String) : Prop := lowerStr a = lowerStr b

/-- Claim C8: for any label the classifier returns, the review is recorded
with the positive flag exactly when the label is a case-insensitive match
of "positive"; every other label collapses to negative. -/
theorem sentiment_flag_case_insensitive_positive (m : Classifier)
    (latest_run_id text : String) (db : DBState) (movie_id : Int)
    (labels : List String) (sentiment : String)
    (h1 : m [text] = .ok labels) (h2 : labels.head? = some sentiment) :
    (submit_and_predict_review (some m) latest_run_id none db movie_id
        text).db.reviews =
      db.reviews ++
        [⟨db.nextReviewId, movie_id, text, lowerStr sentiment == "positive"⟩] ∧
    ((lowerStr sentiment == "positive") = true ↔
      caseInsensitiveEq sentiment "positive") := by
  have hc : classifyStep m text =
      .ok (sentiment, lowerStr sentiment == "positive") := by
    simp [classifyStep, h1, h2]
  constructor
  · simp [submit_and_predict_review, hc]
  · have hp : lowerStr "positive" = "positive" := by decide
    unfold caseInsensitiveEq
    rw [hp]
    exact beq_iff_eq

/-- Witness for claim C8 at a concrete run with a capitalized label. -/
theorem sentiment_flag_case_insensitive_positive_witness :
    alwaysPositive ["what a film"] = Except.ok ["Positive"] ∧
    (["Positive"].head? = some "Positive") ∧
    ((submit_and_predict_review (some alwaysPositive) "v7" none db3 1
        "what a film").db.reviews =
      db3.reviews ++
        [⟨db3.nextReviewId, 1, "what a film",
          lowerStr "Positive" == "positive"⟩] ∧
    ((lowerStr "Positive" == "positive") = true ↔
      caseInsensitiveEq "Positive" "positive")) :=
  ⟨by rfl, by rfl,
   sentiment_flag_case_insensitive_positive alwaysPositive "v7" "what a film"
     db3 1 ["Positive"] "Positive" (by rfl) (by rfl)⟩

/-- Claim C10: when the write raises, the session is rolled back (the trace
ends add, commit, rollback), the persisted state is exactly what it was
before the call, and the failure is surfaced as the 500 error. -/
theorem db_failure_rolls_back_state_unchanged (m : Classifier)
    (latest_run_id e : String) (db : DBState) (movie_id : Int)
    (text sentiment : String) (is_positive : Bool)
    (h : classifyStep m text = .ok (sentiment, is_positive)) :
    (submit_and_predict_review (some m) latest_run_id (some e) db movie_id
        text).db = db ∧
    (submit_and_predict_review (some m) latest_run_id (some e) db movie_id
        text).dbOps =
      [.add movie_id text is_positive, .commit, .rollback] ∧
    (submit_and_predict_review (some m) latest_run_id (some e) db movie_id
        text).outcome =
      .httpException 500
        "Review saved failed but prediction was successful." := by
  refine ⟨?_, ?_, ?_⟩ <;> simp [submit_and_predict_review, h]

/-- Witness for claim C10 at a concrete failing write. -/
theorem db_failure_rolls_back_state_unchanged_witness :
    classifyStep alwaysPositive "what a film" =
      Except.ok ("Positive", true) ∧
    ((submit_and_predict_review (some alwaysPositive) "v7"
        (some "disk full") db3 1 "what a film").db = db3 ∧
    (submit_and_predict_review (some alwaysPositive) "v7"
        (some "disk full") db3 1 "what a film").dbOps =
      [DbOp.add 1 "what a film" true, DbOp.commit, DbOp.rollback] ∧
    (submit_and_predict_review (some alwaysPositive) "v7"
        (some "disk full") db3 1 "what a film").outcome =
      SubmitOutcome.httpException 500
        "Review saved failed but prediction was successful.") :=
  ⟨by rfl,
   db_failure_rolls_back_state_unchanged alwaysPositive "v7" "disk full"
     db3 1 "what a film" "Positive" true (by rfl)⟩

/-- Counterexample to claim C7 as stated: after a failed startup the version
tag is the sentinel "Unknown" (line 90 of src/app.py, capital U), not the
claimed "unknown". -/
theorem startup_failure_sentinel_cex :
    startupLoad (FSTree.node "mlruns" [] [])
        (fun _ => Except.error "cannot load") = (none, "Unknown") ∧
    ("Unknown" : String) ≠ "unknown" := by
  exact ⟨rfl, by decide⟩

/-- Claim C7 amended: if the walk finds no model.pkl or the found artifact
fails to load, startup completes with the Classifier Port absent and the
sentinel version tag "Unknown"; submit then fails explicitly with 503 while
touching nothing, and the model-independent endpoints are unaffected. -/
theorem startup_failure_degraded_stays_up (tree : FSTree)
    (loadModel : String → Except String Classifier)
    (h : walkFind tree = none ∨
      ∃ uri err, walkFind tree = some uri ∧
        loadModel uri = Except.error err) :
    (startupLoad tree loadModel).1 = none ∧
    (startupLoad tree loadModel).2 = "Unknown" ∧
    (∀ (dbFail : Option String) (db : DBState) (movie_id : Int)
        (text : String),
      submit_and_predict_review (startupLoad tree loadModel).1
          (startupLoad tree loadModel).2 dbFail db movie_id text =
        { outcome :=
            .httpException 503 "Model not loaded. Check server logs.",
          logs := [], db := db, dbOps := [] }) ∧
    home = "Rotten Potatoes API is running." := by
  have hs : startupLoad tree loadModel = (none, "Unknown") := by
    rcases h with h | ⟨uri, err, h1, h2⟩
    · simp [startupLoad, h]
    · simp [startupLoad, h1, h2]
  rw [hs]
  exact ⟨rfl, rfl, fun _ _ _ _ => rfl, rfl⟩

/-- Witness for the amended claim C7 at a concrete empty mlruns tree. -/
theorem startup_failure_degraded_stays_up_witness :
    walkFind (FSTree.node "mlruns" [] []) = none ∧
    ((startupLoad (FSTree.node "mlruns" [] [])
        (fun _ => Except.error "cannot load")).1 = none ∧
    (startupLoad (FSTree.node "mlruns" [] [])
        (fun _ => Except.error "cannot load")).2 = "Unknown" ∧
    (∀ (dbFail : Option String) (db : DBState) (movie_id : Int)
        (text : String),
      submit_and_predict_review
          (startupLoad (FSTree.node "mlruns" [] [])
            (fun _ => Except.error "cannot load")).1
          (startupLoad (FSTree.node "mlruns" [] [])
            (fun _ => Except.error "cannot load")).2 dbFail db movie_id
          text =
        { outcome :=
            SubmitOutcome.httpException 503
              "Model not loaded. Check server logs.",
          logs := [], db := db, dbOps := [] }) ∧
    home = "Rotten Potatoes API is running.") :=
  ⟨by rfl,
   startup_failure_degraded_stays_up (FSTree.node "mlruns" [] [])
     (fun _ => Except.error "cannot load") (Or.inl (by rfl))⟩
